import Mathlib

/-!
Shallow embedding of the `ard` soil / farm dashboard frontend
(Next.js + TypeScript), covering the API client (`frontend/lib/api.ts`),
the page components that fetch data (`app/farms/page.tsx`, the Home map
page, `app/soil_points/page.tsx`, `app/farm/[id]/page.tsx`), the map-layer
components (`FarmMarkers.tsx`, `SoilDashboard.tsx` heatmap layer,
`MapContainer.tsx`), and the hardcoded fallback data
(`FarmsDropdown.tsx`).  Pure functions of the source are translated
directly; React state updates are modelled as explicit state transitions.
JavaScript numbers are modelled as `Int`/`ℚ`, JS string-truthiness
(`s || d`) as an emptiness test, and JS number-truthiness (`if (x)`) as a
zero test.
-/

/-! ## Farm records and the hardcoded fallback data (`FarmsDropdown.tsx`) -/

/-- The three health classifications of a farm record
(`health: "good" | "warning" | "critical"` in `FarmsDropdown.tsx`). -/
inductive Health
  | good
  | warning
  | critical
deriving DecidableEq, Repr

/-- A `Farm` record as declared in `FarmsDropdown.tsx` (same shape as
`FarmListItem` in `lib/api.ts`): id, name, location, `[lat, lng]`
coordinates, size, soil type, health classification and 0-100 health
score. -/
structure Farm where
  id : String
  name : String
  location : String
  coordinates : ℚ × ℚ
  size : String
  soilType : String
  health : Health
  healthScore : Int
deriving DecidableEq, Repr

/-- The fifth entry of the hardcoded sample list in `FarmsDropdown.tsx`. -/
def hailFarm : Farm :=
  { id := "farm-5"
    name := "Hail Wheat Fields"
    location := "Hail, Saudi Arabia"
    coordinates := (27.5114, 41.7208)
    size := "400 hectares"
    soilType := "Loamy Sand"
    health := Health.critical
    healthScore := 65 }

/-- `FARMS_DATA`, the hardcoded sample farms list of `FarmsDropdown.tsx`,
used as the fallback data by the farms list page and the farm detail
page. -/
def FARMS_DATA : List Farm :=
  [ { id := "farm-1"
      name := "Al Kharj Farm"
      location := "Al Kharj, Saudi Arabia"
      coordinates := (24.1500, 47.3000)
      size := "250 hectares"
      soilType := "Sandy Loam"
      health := Health.warning
      healthScore := 78 },
    { id := "farm-2"
      name := "Tabuk Agricultural Project"
      location := "Tabuk, Saudi Arabia"
      coordinates := (28.3838, 36.5550)
      size := "180 hectares"
      soilType := "Clay Loam"
      health := Health.good
      healthScore := 85 },
    { id := "farm-3"
      name := "Qassim Date Plantation"
      location := "Buraydah, Saudi Arabia"
      coordinates := (26.3260, 43.9750)
      size := "320 hectares"
      soilType := "Sandy"
      health := Health.warning
      healthScore := 72 },
    { id := "farm-4"
      name := "Jizan Tropical Farm"
      location := "Jizan, Saudi Arabia"
      coordinates := (16.8892, 42.5511)
      size := "150 hectares"
      soilType := "Alluvial"
      health := Health.good
      healthScore := 88 },
    hailFarm ]

/-! ## Health-score coloring (`app/farms/page.tsx` and `FarmMarkers.tsx`) -/

/-- `getHealthColor` from `app/farms/page.tsx`: color derived from the
numeric health score (`score >= 80` green, `score >= 60` yellow, red
otherwise). -/
def getHealthColor (score : Int) : String :=
  if 80 ≤ score then "#4ade80"
  else if 60 ≤ score then "#facc15"
  else "#f87171"

/-- The marker color of `FarmMarkers.tsx`, chosen from the record's stored
health classification (`farm.health === "good" ? green : warning ? yellow
: red`). -/
def markerHealthColor : Health → String
  | Health.good => "#4ade80"
  | Health.warning => "#facc15"
  | Health.critical => "#f87171"

/-- The three-way bucketing of a 0-100 score stated by the spec: good when
`score >= 80`, warning when `60 <= score < 80`, critical when
`score < 60`. -/
def scoreBucket (score : Int) : Health :=
  if 80 ≤ score then Health.good
  else if 60 ≤ score then Health.warning
  else Health.critical

/-! ## Camera distance table (Home page, `getCameraDistance`) -/

/-- JavaScript `s || d` on strings: the empty string is falsy. -/
def jsStringOr (s d : String) : String :=
  if s = "" then d else s

/-- The 19-entry `distances` table inside `getCameraDistance` on the Home
map page. -/
def cameraDistances : List String :=
  [ "20,000 km", "10,000 km", "6,579 km", "3,000 km", "1,500 km",
    "750 km", "400 km", "200 km", "100 km", "50 km", "25 km", "12 km",
    "6 km", "3 km", "1.5 km", "800 m", "400 m", "200 m", "100 m" ]

/-- `getCameraDistance` from the Home map page:
`distances[Math.min(zoom, distances.length - 1)] || "100 m"`. -/
def getCameraDistance (zoom : Nat) : String :=
  match cameraDistances.get? (min zoom (cameraDistances.length - 1)) with
  | some s => jsStringOr s "100 m"
  | none => "100 m"

/-! ## Heatmap sample-point clamping (`SoilDashboard.tsx`) -/

/-- The fixed offsets added to the farm's health score by the
`samplePoints` array of the `SoilDashboard.tsx` heatmap layer. -/
def sampleOffsets : List Int := [0, 5, -8, 2, -3, 10, -5]

/-- `Math.max(0, Math.min(100, value))` from the heatmap layer. -/
def clampScore (v : Int) : Int := max 0 (min 100 v)

/-- The clamped values displayed for a farm's soil-sample points:
`samplePoints.map(p => Math.max(0, Math.min(100, p.value)))` where each
`value` is `farm.healthScore + offset`. -/
def displayedSampleValues (healthScore : Int) : List Int :=
  sampleOffsets.map (fun o => clampScore (healthScore + o))

/-! ## The API client (`frontend/lib/api.ts`) -/

/-- Result of `response.json()`: either the body fails to parse (the
rejection carries a parse-error message), or it parses to a JSON value
whose optional `detail` field is the given string (`detail := none`
models both an object without a truthy-checkable `detail` and any other
parsed value). -/
inductive JsonBody
  | failed (parseErrMsg : String)
  | object (detail : Option String)
deriving DecidableEq, Repr

/-- The observable part of a `fetch` `Response` used by
`ApiClient.fetch`: `ok`, `status`, `statusText`, and the parse result of
its body. -/
structure HttpResponse where
  ok : Bool
  status : Nat
  statusText : String
  body : JsonBody
deriving DecidableEq, Repr

/-- Outcome of one `await fetch(...)`: either the promise rejects with an
error (`isTypeError` records `error instanceof TypeError`) or a response
arrives. -/
inductive FetchOutcome
  | thrown (isTypeError : Bool) (msg : String)
  | got (r : HttpResponse)
deriving DecidableEq, Repr

/-- The error message computed by `ApiClient.fetch` for a non-ok
response: `const error = await response.json().catch(() => ({ detail:
response.statusText })); throw new Error(error.detail || "HTTP " +
response.status)`.  A failed body parse substitutes `{ detail:
statusText }`; the JS `||` treats the empty string as falsy. -/
def fetchErrorMessage (r : HttpResponse) : String :=
  let detail : Option String :=
    match r.body with
    | JsonBody.failed _ => some r.statusText
    | JsonBody.object d => d
  match detail with
  | some d => jsStringOr d ("HTTP " ++ toString r.status)
  | none => "HTTP " ++ toString r.status

/-- The message `ApiClient.fetch` substitutes for a network-level
`TypeError: Failed to fetch`. -/
def apiConnectMsg : String := "Unable to connect to API server. Is the backend running?"

/-- The corresponding message in `ApiClient.getFarms` / `getFarm`. -/
def farmsConnectMsg : String := "Unable to connect to Farms API server. Is the backend running?"

/-- `ApiClient.fetch` (also the inlined copies in `getFarms`/`getFarm`,
which differ only in `connectMsg`): an ok response returns its parsed
body (a body that fails to parse propagates the parse error); a non-ok
response throws `fetchErrorMessage`; a rejection that is a `TypeError`
with message `"Failed to fetch"` is replaced by `connectMsg`, every
other rejection is rethrown unchanged. -/
def clientFetch (connectMsg : String) : FetchOutcome → Except String JsonBody
  | FetchOutcome.thrown isTypeError msg =>
      if isTypeError && msg == "Failed to fetch" then Except.error connectMsg
      else Except.error msg
  | FetchOutcome.got r =>
      if r.ok then
        match r.body with
        | JsonBody.object d => Except.ok (JsonBody.object d)
        | JsonBody.failed m => Except.error m
      else Except.error (fetchErrorMessage r)

/-- `ApiClient.fetch` proper (base-URL API, message `apiConnectMsg`). -/
def apiFetch : FetchOutcome → Except String JsonBody := clientFetch apiConnectMsg

/-- One client operation run against an environment listing the outcomes
of successive `fetch` attempts, in order.  The source contains no loop or
retry, so the run consumes the head outcome only; the remaining
environment is returned alongside the result. -/
def clientRun (connectMsg : String) (env : List FetchOutcome) :
    Except String JsonBody × List FetchOutcome :=
  match env with
  | [] => (Except.error "no fetch attempt was made", [])
  | o :: rest => (clientFetch connectMsg o, rest)

/-! ### Request URLs of the client operations -/

/-- The optional `params` argument of `ApiClient.getSamples`. -/
structure SamplesParams where
  limit : Option Nat
  offset : Option Nat
  random : Option Bool
deriving DecidableEq, Repr

/-- `if (params?.limit) searchParams.set("limit", ...)`: a numeric
parameter is appended only when present and nonzero (JS number
truthiness). -/
def addIfTruthyNat (key : String) (v : Option Nat)
    (acc : List (String × String)) : List (String × String) :=
  match v with
  | some n => if n = 0 then acc else acc ++ [(key, toString n)]
  | none => acc

/-- `if (params?.random) searchParams.set("random", "true")`. -/
def addIfTruthyBool (key : String) (v : Option Bool)
    (acc : List (String × String)) : List (String × String) :=
  match v with
  | some b => if b then acc ++ [(key, "true")] else acc
  | none => acc

/-- The `URLSearchParams` built by `getSamples`, as its ordered key-value
pairs. -/
def samplesSearchParams (po : Option SamplesParams) : List (String × String) :=
  match po with
  | none => []
  | some p =>
      addIfTruthyBool "random" p.random
        (addIfTruthyNat "offset" p.offset
          (addIfTruthyNat "limit" p.limit []))

/-- `URLSearchParams.toString()`: `k=v` pairs joined by `&` (the keys and
values set by `getSamples` need no percent-encoding). -/
def queryString (pairs : List (String × String)) : String :=
  String.intercalate "&" (pairs.map (fun kv => kv.1 ++ "=" ++ kv.2))

/-- The request URL of `getSamples`:
`/api/samples${query ? "?" + query : ""}`. -/
def getSamplesUrl (po : Option SamplesParams) : String :=
  let query := queryString (samplesSearchParams po)
  "/api/samples" ++ (if query = "" then "" else "?" ++ query)

/-- The operations of `ApiClient`, each with the arguments that shape its
request URL. -/
inductive ApiOp
  | getHealth
  | getProperties
  | getStates
  | getStateDetail (stateCode : String)
  | getSamples (params : Option SamplesParams)
  | getSample (sampleIdx : Nat)
  | getFarms (limit : Nat)
  | getFarm (farmId : String)

/-- The path component (before any query string) of the request each
operation issues, read off the template literals in `lib/api.ts`. -/
def requestPath : ApiOp → String
  | ApiOp.getHealth => "/api/health"
  | ApiOp.getProperties => "/api/properties"
  | ApiOp.getStates => "/api/states"
  | ApiOp.getStateDetail c => "/api/states/" ++ c
  | ApiOp.getSamples _ => "/api/samples"
  | ApiOp.getSample i => "/api/samples/" ++ toString i
  | ApiOp.getFarms _ => "/api/farms"
  | ApiOp.getFarm id => "/api/farms/" ++ id

/-- The query string of each operation (empty when none): `getSamples`
uses `samplesSearchParams`, `getFarms` always sends `limit`. -/
def requestQuery : ApiOp → String
  | ApiOp.getSamples p => queryString (samplesSearchParams p)
  | ApiOp.getFarms limit => "limit=" ++ toString limit
  | _ => ""

/-- The full request URL (relative to the base URL). -/
def requestUrl (op : ApiOp) : String :=
  requestPath op ++ (if requestQuery op = "" then "" else "?" ++ requestQuery op)

/-- Boolean list-prefix test (used to match a path against an endpoint
template with a trailing parameter segment). -/
def listIsPre : List Char → List Char → Bool
  | [], _ => true
  | _ :: _, [] => false
  | a :: as, b :: bs => a == b && listIsPre as bs

/-- A path matches the endpoint template `tmpl ++ "{param}"`. -/
def matchesParamTemplate (tmpl path : String) : Bool :=
  listIsPre tmpl.data path.data

/-- The endpoint list of the spec: `GET /api/farms`, `GET
/api/farms/{id}`, `GET /api/samples`, `GET /api/states`, `GET
/api/states/{code}`, `GET /api/properties`, `GET /api/health`. -/
def specListedEndpoint (p : String) : Bool :=
  (p == "/api/farms") || matchesParamTemplate "/api/farms/" p ||
  (p == "/api/samples") || (p == "/api/states") ||
  matchesParamTemplate "/api/states/" p ||
  (p == "/api/properties") || (p == "/api/health")

/-- The endpoint list extended with `GET /api/samples/{idx}` (the
endpoint `getSample` actually requests). -/
def amendedEndpoint (p : String) : Bool :=
  specListedEndpoint p || matchesParamTemplate "/api/samples/" p

/-! ## Soil-points page (`app/soil_points/page.tsx`) -/

/-- A value stored under a key of a GeoJSON feature's `properties`
object: a number, a string, or the nested `descriptions` object. -/
inductive PropValue
  | num (v : ℚ)
  | str (s : String)
  | descTable (entries : List (String × String))
deriving DecidableEq, Repr

/-- The `properties` object of a soil-point feature: its `id` plus the
remaining key-value pairs in insertion order. -/
structure SoilProperties where
  id : String
  extra : List (String × PropValue)
deriving DecidableEq, Repr

/-- A GeoJSON soil-point feature: `geometry.coordinates = [lon, lat]`
plus `properties`. -/
structure SoilPointFeature where
  coordinates : ℚ × ℚ
  properties : SoilProperties
deriving DecidableEq, Repr

/-- `Object.entries(selectedPoint.properties)`: the `id` entry followed
by the remaining entries. -/
def propEntries (p : SoilProperties) : List (String × PropValue) :=
  ("id", PropValue.str p.id) :: p.extra

/-- The keys the detail panel filters out before listing metrics. -/
def excludedKeys : List String :=
  ["id", "descriptions", "country", "latitude", "longitude"]

/-- The metric rows of the detail panel: `Object.entries(properties)`
filtered to keys outside `excludedKeys`, keeping only entries whose value
is a number (non-numbers render `null`). -/
def panelMetrics (p : SoilPointFeature) : List (String × ℚ) :=
  (propEntries p.properties).filterMap (fun kv =>
    if kv.1 ∈ excludedKeys then none
    else
      match kv.2 with
      | PropValue.num v => some (kv.1, v)
      | _ => none)

/-- What the detail panel displays for a selected point: the sample id,
`Lat: coordinates[1]`, `Lon: coordinates[0]`, and the metric rows. -/
structure PanelView where
  id : String
  lat : ℚ
  lon : ℚ
  metrics : List (String × ℚ)
deriving DecidableEq, Repr

/-- The detail panel rendered for `selectedPoint` in
`app/soil_points/page.tsx`. -/
def detailPanel (p : SoilPointFeature) : PanelView :=
  { id := p.properties.id
    lat := p.coordinates.2
    lon := p.coordinates.1
    metrics := panelMetrics p }

/-- `handleClick` of `app/soil_points/page.tsx`: clicking a point
deselects it when it is already the selected one
(`selectedPoint?.properties.id === point.properties.id`) and selects it
otherwise. -/
def handleClick (selectedPoint : Option SoilPointFeature)
    (point : SoilPointFeature) : Option SoilPointFeature :=
  match selectedPoint with
  | some sp =>
      if sp.properties.id = point.properties.id then none else some point
  | none => some point

/-! ## State map page (`app/page.tsx`) -/

/-- The metrics record returned by `getPlaceholderMetrics` (rationals
stand in for the JS float literals). -/
structure PlaceholderMetrics where
  activeSensors : Nat
  coverage : Nat
  avgLatency : Nat
  energyUse : ℚ
  soilHealth : Nat
  yoyChange : ℚ
deriving DecidableEq, Repr

/-- The length of the hardcoded `LIVE_POINTS` mock list (5 sensor
sites). -/
def LIVE_POINTS_length : Nat := 5

/-- `getPlaceholderMetrics` from `app/page.tsx`. -/
def getPlaceholderMetrics : PlaceholderMetrics :=
  { activeSensors := LIVE_POINTS_length * 10
    coverage := 75
    avgLatency := 180
    energyUse := 2.1
    soilHealth := 68
    yoyChange := 4.5 }

/-- `const activeRegionId = hoveredRegion ?? selectedRegion`. -/
def activeRegionId (hoveredRegion : Option String) (selectedRegion : String) : String :=
  hoveredRegion.getD selectedRegion

/-- The metrics displayed in the details panel of the state map for a
given active region id: `const activeMetrics = getPlaceholderMetrics()`
(line 205 of `app/page.tsx`) ignores the id. -/
def stateMapActiveMetrics (_activeId : String) : PlaceholderMetrics :=
  getPlaceholderMetrics

/-! ## Error handling of the data-fetching pages -/

/-- The page components that fetch from the external APIs on mount. -/
inductive FetchingPage
  | farmsList
  | homeMap
  | soilPoints
  | farmDetail
deriving DecidableEq, Repr

/-- State of `app/farms/page.tsx`. -/
structure FarmsPageState where
  farms : List Farm
  loading : Bool
  error : Option String
deriving DecidableEq, Repr

/-- Initial state of the farms list page (`useState([])`,
`useState(true)`, `useState(null)`). -/
def farmsPageInit : FarmsPageState :=
  { farms := [], loading := true, error := none }

/-- The `catch`/`finally` of `fetchFarms` in `app/farms/page.tsx`:
`setError(message); setFarms(FARMS_DATA); setLoading(false)`. -/
def farmsPageOnError (msg : String) (_s : FarmsPageState) : FarmsPageState :=
  { farms := FARMS_DATA, loading := false, error := some msg }

/-- State of the Home map page (its only fetched data is `farms`; the
component declares no error state). -/
structure HomePageState where
  farms : List Farm
deriving DecidableEq, Repr

/-- The `catch` of `fetchFarms` on the Home map page: it only logs
(`console.error`), changing no state. -/
def homePageOnError (_msg : String) (s : HomePageState) : HomePageState := s

/-- State of `app/soil_points/page.tsx` (the component declares no error
state; `soilPoints` starts as `null`). -/
structure SoilPointsPageState where
  soilPoints : Option (List SoilPointFeature)
  isLoading : Bool
deriving DecidableEq, Repr

/-- The `catch`/`finally` of `fetchSoilData`:
`setSoilPoints([]); setIsLoading(false)`. -/
def soilPointsOnError (_msg : String) (_s : SoilPointsPageState) : SoilPointsPageState :=
  { soilPoints := some [], isLoading := false }

/-- State of `app/farm/[id]/page.tsx` relevant to its fetch handler. -/
structure FarmDetailPageState where
  farm : Option Farm
  loading : Bool
  error : Option String
  mapCenter : ℚ × ℚ
deriving DecidableEq, Repr

/-- The `catch`/`finally` of `fetchFarm` in `app/farm/[id]/page.tsx`:
store the message, then substitute the matching `FARMS_DATA` entry (and
recenter the map) when one exists. -/
def farmDetailOnError (farmId msg : String) (s : FarmDetailPageState) :
    FarmDetailPageState :=
  match FARMS_DATA.find? (fun f => f.id == farmId) with
  | some fb =>
      { farm := some fb, loading := false, error := some msg
        mapCenter := fb.coordinates }
  | none =>
      { farm := s.farm, loading := false, error := some msg
        mapCenter := s.mapCenter }

/-- The user-visible error banner the page renders after a failed fetch
with message `msg`: only `app/farms/page.tsx` renders its `error` state
(`{error && <div className="error-banner">…}`); `app/farm/[id]/page.tsx`
sets its `error` state in the catch but never references it in its JSX,
and the Home map page and the soil-points page declare no error state at
all, so none of those three renders a banner. -/
def bannerAfterFailure (p : FetchingPage) (_farmId msg : String) : Option String :=
  match p with
  | FetchingPage.farmsList => (farmsPageOnError msg farmsPageInit).error
  | FetchingPage.homeMap => none
  | FetchingPage.soilPoints => none
  | FetchingPage.farmDetail => none

/-- The ids of the records each page displays after a failed fetch,
starting from its initial state. -/
def displayedIdsAfterFailure (p : FetchingPage) (farmId msg : String) : List String :=
  match p with
  | FetchingPage.farmsList => (farmsPageOnError msg farmsPageInit).farms.map Farm.id
  | FetchingPage.homeMap => (homePageOnError msg { farms := [] }).farms.map Farm.id
  | FetchingPage.soilPoints =>
      ((soilPointsOnError msg { soilPoints := none, isLoading := true }).soilPoints.getD
        []).map (fun pt => pt.properties.id)
  | FetchingPage.farmDetail =>
      ((farmDetailOnError farmId msg
          { farm := none, loading := true, error := none
            mapCenter := (24.7136, 46.6753) }).farm.map Farm.id).toList

/-! ## Map-layer cleanup (`FarmMarkers.tsx`, `SoilDashboard.tsx`,
`MapContainer.tsx`) -/

/-- State of the `FarmMarkers` component: `none` when the layer group was
never created, `some ms` when the group is attached and holds the marker
ids `ms`. -/
structure FarmMarkersState where
  group : Option (List String)
deriving DecidableEq, Repr

/-- The `FarmMarkers` effect body (when `map` is non-null): ensure the
layer group exists, `clearLayers()`, then add one marker per farm. -/
def farmMarkersEffect (farms : List Farm) (_s : FarmMarkersState) : FarmMarkersState :=
  { group := some (farms.map Farm.id) }

/-- The `FarmMarkers` effect cleanup: `if (markersLayerRef.current)
markersLayerRef.current.clearLayers()`. -/
def farmMarkersCleanup (s : FarmMarkersState) : FarmMarkersState :=
  match s.group with
  | some _ => { group := some [] }
  | none => { group := none }

/-- State of the `SoilHeatmapLayer` component of `SoilDashboard.tsx`:
the layer ids currently attached to the map, and the component's
`markersRef`. -/
structure HeatmapLayerState where
  mapLayers : List Nat
  markersRef : Option Nat
deriving DecidableEq, Repr

/-- The `SoilHeatmapLayer` effect cleanup: `if (markersRef.current) {
map.removeLayer(markersRef.current); markersRef.current = null }`. -/
def heatmapCleanup (s : HeatmapLayerState) : HeatmapLayerState :=
  match s.markersRef with
  | some l => { mapLayers := s.mapLayers.erase l, markersRef := none }
  | none => s

/-- State of the `MapContainer` component: the map instance ids alive in
the page and the component's `mapInstanceRef`. -/
structure MapContainerState where
  liveMaps : List Nat
  mapInstanceRef : Option Nat
deriving DecidableEq, Repr

/-- The `MapContainer` init-effect cleanup over the map `m` it created:
`map.remove(); mapInstanceRef.current = null`. -/
def mapContainerCleanup (m : Nat) (s : MapContainerState) : MapContainerState :=
  { liveMaps := s.liveMaps.erase m, mapInstanceRef := none }

/-! ## Helper lemmas -/

/-- A character list is a `listIsPre`-prefix of itself followed by
anything. -/
lemma listIsPre_append (as bs : List Char) : listIsPre as (as ++ bs) = true := by
  induction as with
  | nil => rfl
  | cons a as ih => simp [listIsPre, ih]

/-- A string matches the template built from itself as prefix. -/
lemma matchesParamTemplate_append (tmpl s : String) :
    matchesParamTemplate tmpl (tmpl ++ s) = true := by
  unfold matchesParamTemplate
  rw [String.data_append]
  exact listIsPre_append _ _

/-! ## Claim theorems -/

/-- C10: `getCameraDistance` is total over all zoom levels: the
`Math.min` guard keeps the index inside the 19-entry table, so the result
is always one of the table's distance strings, and every zoom level at or
above 18 yields `"100 m"`. -/
theorem getCameraDistance_total (zoom : Nat) :
    getCameraDistance zoom ∈ cameraDistances ∧
    cameraDistances.length = 19 ∧
    (18 ≤ zoom → getCameraDistance zoom = "100 m") := by
  have key : 18 ≤ zoom → getCameraDistance zoom = "100 m" := by
    intro h18
    have hm : min zoom (cameraDistances.length - 1) = 18 := by
      have hlen : cameraDistances.length = 19 := rfl
      rw [hlen]
      omega
    unfold getCameraDistance
    rw [hm]
    decide
  refine ⟨?_, rfl, key⟩
  by_cases h : zoom ≤ 17
  · interval_cases zoom <;> decide
  · rw [key (by omega)]
    decide

/-- C10 witness: at zoom 20 the camera distance is `"100 m"` and lies in
the table. -/
theorem getCameraDistance_total_witness :
    getCameraDistance 20 ∈ cameraDistances ∧ getCameraDistance 20 = "100 m" :=
  ⟨(getCameraDistance_total 20).1, (getCameraDistance_total 20).2.2 (by decide)⟩

/-- C5: every soil-sample value displayed by the heatmap layer (health
score plus a fixed offset, each offset between -8 and +10) is clamped
into 0-100, and the clamp leaves a value already in that range
unchanged. -/
theorem heatmap_values_clamped (healthScore : Int) :
    (∀ v ∈ displayedSampleValues healthScore, 0 ≤ v ∧ v ≤ 100) ∧
    (∀ o ∈ sampleOffsets, -8 ≤ o ∧ o ≤ 10) ∧
    (∀ v : Int, 0 ≤ v → v ≤ 100 → clampScore v = v) := by
  refine ⟨?_, by decide, ?_⟩
  · intro v hv
    simp only [displayedSampleValues, List.mem_map] at hv
    obtain ⟨o, -, rfl⟩ := hv
    unfold clampScore
    exact ⟨le_max_left 0 _, max_le (by norm_num) (min_le_left _ _)⟩
  · intro v h0 h100
    unfold clampScore
    rw [min_eq_right h100, max_eq_right h0]

/-- C5 witness: for a farm scoring 78 the first displayed sample value is
in range, and the clamp fixes 50. -/
theorem heatmap_values_clamped_witness :
    (0 ≤ clampScore (78 + 0) ∧ clampScore (78 + 0) ≤ 100) ∧ clampScore 50 = 50 :=
  ⟨(heatmap_values_clamped 78).1 (clampScore (78 + 0)) (by decide),
   (heatmap_values_clamped 78).2.2 50 (by decide) (by decide)⟩

/-- C4 counterexample: the fifth hardcoded farm (`farm-5`, Hail Wheat
Fields) has health score 65 — whose score-derived color is the warning
yellow — but stored classification `critical`, whose marker color is red:
the two display colorings disagree on `FARMS_DATA`. -/
theorem health_color_mismatch_farm5 :
    hailFarm ∈ FARMS_DATA ∧
    getHealthColor hailFarm.healthScore ≠ markerHealthColor hailFarm.health := by
  constructor
  · unfold FARMS_DATA
    exact List.mem_cons_of_mem _ (List.mem_cons_of_mem _ (List.mem_cons_of_mem _
      (List.mem_cons_of_mem _ (List.mem_cons_self _ _))))
  · decide

/-- C4 amended: the score-derived color implements exactly the
good/warning/critical bucketing (good at 80 and above, warning from 60 to
79, critical below 60), and it agrees with the color chosen from the
stored health classification for every hardcoded farm except `farm-5`. -/
theorem health_color_agrees_except_farm5 :
    (∀ score : Int, getHealthColor score = markerHealthColor (scoreBucket score)) ∧
    (∀ f ∈ FARMS_DATA, f.id ≠ "farm-5" →
      getHealthColor f.healthScore = markerHealthColor f.health) := by
  constructor
  · intro score
    unfold getHealthColor markerHealthColor scoreBucket
    by_cases h80 : 80 ≤ score
    · simp [h80]
    · by_cases h60 : 60 ≤ score <;> simp [h80, h60]
  · intro f hf hid
    fin_cases hf
    · decide
    · decide
    · decide
    · decide
    · exact absurd rfl hid

/-- C4 amended witness: the bucketing agrees with the color at score 42,
and the first hardcoded farm's two colorings agree. -/
theorem health_color_agrees_witness :
    getHealthColor 42 = markerHealthColor (scoreBucket 42) ∧
    getHealthColor ((FARMS_DATA.get ⟨0, by decide⟩).healthScore) =
      markerHealthColor ((FARMS_DATA.get ⟨0, by decide⟩).health) :=
  ⟨health_color_agrees_except_farm5.1 42,
   health_color_agrees_except_farm5.2 _ (List.get_mem _ _ _) (by decide)⟩

/-- C9: `getSamples` called without parameters requests exactly
`/api/samples` with no query string, and a zero `limit` or `offset` is
omitted from the query, so passing 0 yields the same URL as omitting the
parameter. -/
theorem getSamples_url_omits_zero_params :
    getSamplesUrl none = "/api/samples" ∧
    (∀ l r, getSamplesUrl (some ⟨l, some 0, r⟩) = getSamplesUrl (some ⟨l, none, r⟩)) ∧
    (∀ o r, getSamplesUrl (some ⟨some 0, o, r⟩) = getSamplesUrl (some ⟨none, o, r⟩)) ∧
    (∀ p, requestUrl (ApiOp.getSamples p) = getSamplesUrl p) := by
  refine ⟨rfl, fun l r => rfl, fun o r => rfl, fun p => rfl⟩

/-- C6: a client operation run against a stream of fetch outcomes
consumes exactly the first one — no retry, backoff, or second attempt —
and a failing first attempt propagates its error immediately. -/
theorem client_single_attempt :
    (∀ connectMsg o rest, (clientRun connectMsg (o :: rest)).2 = rest) ∧
    (∀ connectMsg o rest e, clientFetch connectMsg o = Except.error e →
      clientRun connectMsg (o :: rest) = (Except.error e, rest)) := by
  constructor
  · intro connectMsg o rest
    rfl
  · intro connectMsg o rest e h
    simp [clientRun, h]

/-- C6 witness: a connection failure on the farms API consumes one
outcome and propagates the substituted connection error. -/
theorem client_single_attempt_witness :
    clientRun farmsConnectMsg [FetchOutcome.thrown true "Failed to fetch"] =
      (Except.error farmsConnectMsg, []) :=
  client_single_attempt.2 farmsConnectMsg (FetchOutcome.thrown true "Failed to fetch")
    [] farmsConnectMsg rfl

/-- C3 counterexample: `ApiClient.getSample` requests
`/api/samples/{idx}` — for index 0 the path `/api/samples/0` — which
matches none of the seven endpoints listed by the spec. -/
theorem getSample_endpoint_not_listed :
    requestPath (ApiOp.getSample 0) = "/api/samples/0" ∧
    specListedEndpoint (requestPath (ApiOp.getSample 0)) = false := by
  constructor
  · rfl
  · decide

/-- C3 amended: every request of the API client targets one of `GET
/api/farms`, `GET /api/farms/{id}`, `GET /api/samples`, `GET
/api/samples/{idx}`, `GET /api/states`, `GET /api/states/{code}`, `GET
/api/properties`, `GET /api/health`; no operation requests any other
path. -/
theorem api_client_endpoints_amended (op : ApiOp) :
    amendedEndpoint (requestPath op) = true := by
  cases op with
  | getHealth => decide
  | getProperties => decide
  | getStates => decide
  | getStateDetail c =>
      have h : matchesParamTemplate "/api/states/" ("/api/states/" ++ c) = true :=
        matchesParamTemplate_append _ _
      simp [amendedEndpoint, specListedEndpoint, requestPath, h]
  | getSamples p =>
      show amendedEndpoint "/api/samples" = true
      decide
  | getSample i =>
      have h : matchesParamTemplate "/api/samples/" ("/api/samples/" ++ toString i) = true :=
        matchesParamTemplate_append _ _
      simp [amendedEndpoint, requestPath, h]
  | getFarms limit =>
      show amendedEndpoint "/api/farms" = true
      decide
  | getFarm id =>
      have h : matchesParamTemplate "/api/farms/" ("/api/farms/" ++ id) = true :=
        matchesParamTemplate_append _ _
      simp [amendedEndpoint, specListedEndpoint, requestPath, h]

/-- C8 counterexample: for a non-ok 404 response whose body does not
parse as JSON and whose `statusText` is `"Not Found"`, `ApiClient.fetch`
throws `"Not Found"` (the `.catch` substitutes `{ detail: statusText }`),
not `"HTTP 404"` as claimed. -/
theorem fetch_error_message_uses_statusText :
    apiFetch (FetchOutcome.got
      { ok := false, status := 404, statusText := "Not Found"
        body := JsonBody.failed "SyntaxError: unexpected token" }) =
      Except.error "Not Found" ∧
    "Not Found" ≠ "HTTP 404" := by
  exact ⟨rfl, by decide⟩

/-- C8 amended: `ApiClient.fetch` returns the parsed body of an ok
response (propagating the parse error of an unparseable ok body) and
otherwise throws: a network `TypeError` with message `"Failed to fetch"`
becomes the fixed connection message, any other rejection is rethrown
unchanged, and for a non-ok response the message is the body's nonempty
`detail` when the body parses with one, `"HTTP <status>"` when it parses
without one (or with an empty one), and the response's `statusText`
(falling back to `"HTTP <status>"` when that is empty) when the body does
not parse as JSON. -/
theorem apiFetch_result_spec :
    apiFetch (FetchOutcome.thrown true "Failed to fetch") = Except.error apiConnectMsg ∧
    (∀ isTE msg, (isTE && msg == "Failed to fetch") = false →
      apiFetch (FetchOutcome.thrown isTE msg) = Except.error msg) ∧
    (∀ r : HttpResponse, r.ok = true → ∀ d, r.body = JsonBody.object d →
      apiFetch (FetchOutcome.got r) = Except.ok (JsonBody.object d)) ∧
    (∀ r : HttpResponse, r.ok = true → ∀ m, r.body = JsonBody.failed m →
      apiFetch (FetchOutcome.got r) = Except.error m) ∧
    (∀ r : HttpResponse, r.ok = false →
      apiFetch (FetchOutcome.got r) = Except.error (fetchErrorMessage r)) ∧
    (∀ r : HttpResponse, ∀ d, r.body = JsonBody.object (some d) → d ≠ "" →
      fetchErrorMessage r = d) ∧
    (∀ r : HttpResponse, r.body = JsonBody.object none ∨ r.body = JsonBody.object (some "") →
      fetchErrorMessage r = "HTTP " ++ toString r.status) ∧
    (∀ r : HttpResponse, ∀ m, r.body = JsonBody.failed m →
      fetchErrorMessage r = jsStringOr r.statusText ("HTTP " ++ toString r.status)) := by
  refine ⟨rfl, ?_, ?_, ?_, ?_, ?_, ?_, ?_⟩
  · intro isTE msg h
    simp [apiFetch, clientFetch, h]
  · intro r hok d hbody
    simp [apiFetch, clientFetch, hok, hbody]
  · intro r hok m hbody
    simp [apiFetch, clientFetch, hok, hbody]
  · intro r hok
    simp [apiFetch, clientFetch, hok]
  · intro r d hbody hne
    simp [fetchErrorMessage, hbody, jsStringOr, hne]
  · intro r hbody
    rcases hbody with h | h <;> simp [fetchErrorMessage, h, jsStringOr]
  · intro r m hbody
    simp [fetchErrorMessage, hbody]

/-- C8 amended witness: a 500 response with a parsed `detail` of
`"boom"` throws `"boom"`, and a rejection that is not the network
`TypeError` is rethrown unchanged. -/
theorem apiFetch_result_spec_witness :
    apiFetch (FetchOutcome.got
      { ok := false, status := 500, statusText := "Internal Server Error"
        body := JsonBody.object (some "boom") }) = Except.error "boom" ∧
    apiFetch (FetchOutcome.thrown false "Failed to fetch") =
      Except.error "Failed to fetch" := by
  constructor
  · have h5 := apiFetch_result_spec.2.2.2.2.1
      { ok := false, status := 500, statusText := "Internal Server Error"
        body := JsonBody.object (some "boom") } rfl
    have h6 := apiFetch_result_spec.2.2.2.2.2.1
      { ok := false, status := 500, statusText := "Internal Server Error"
        body := JsonBody.object (some "boom") } "boom" rfl (by decide)
    rw [h5, h6]
  · exact apiFetch_result_spec.2.1 false "Failed to fetch" (by decide)

/-- C1 counterexample: on the Home map page a rejected farms fetch is
only logged — no error message is stored for a banner and the displayed
farms stay empty instead of being replaced by the nonempty hardcoded
fallback list. -/
theorem home_page_failure_not_masked :
    bannerAfterFailure FetchingPage.homeMap "farm-1" apiConnectMsg = none ∧
    displayedIdsAfterFailure FetchingPage.homeMap "farm-1" apiConnectMsg = [] ∧
    FARMS_DATA.map Farm.id ≠ [] := by
  exact ⟨rfl, rfl, by decide⟩

/-- C1 amended: only the farms list page stores the caught error message
for a user-visible banner and substitutes the hardcoded fallback data;
the farm detail page substitutes the matching `FARMS_DATA` entry (when
the requested id exists) and sets its error state, but never renders
that state, so no banner appears; the Home map page catches the
rejection but merely logs it, leaving its state unchanged, and the
soil-points page stores no banner message and replaces the data with the
empty list. -/
theorem page_failure_handling_per_page :
    (∀ farmId msg, bannerAfterFailure FetchingPage.farmsList farmId msg = some msg ∧
      displayedIdsAfterFailure FetchingPage.farmsList farmId msg = FARMS_DATA.map Farm.id) ∧
    (∀ msg s, homePageOnError msg s = s) ∧
    (∀ farmId msg, bannerAfterFailure FetchingPage.homeMap farmId msg = none ∧
      bannerAfterFailure FetchingPage.soilPoints farmId msg = none) ∧
    (∀ msg s, (soilPointsOnError msg s).soilPoints = some []) ∧
    (∀ farmId msg, bannerAfterFailure FetchingPage.farmDetail farmId msg = none ∧
      ∀ s, (farmDetailOnError farmId msg s).error = some msg) ∧
    (∀ farmId msg fb, FARMS_DATA.find? (fun f => f.id == farmId) = some fb →
      ∀ s, farmDetailOnError farmId msg s =
        { farm := some fb, loading := false, error := some msg
          mapCenter := fb.coordinates }) ∧
    (∀ farmId msg, FARMS_DATA.find? (fun f => f.id == farmId) = none →
      ∀ s, (farmDetailOnError farmId msg s).farm = s.farm ∧
        (farmDetailOnError farmId msg s).error = some msg) := by
  refine ⟨fun farmId msg => ⟨rfl, rfl⟩, fun msg s => rfl, fun farmId msg => ⟨rfl, rfl⟩,
    fun msg s => rfl, ?_, ?_, ?_⟩
  · intro farmId msg
    refine ⟨rfl, ?_⟩
    intro s
    unfold farmDetailOnError
    cases FARMS_DATA.find? (fun f => f.id == farmId) <;> rfl
  · intro farmId msg fb h s
    simp [farmDetailOnError, h]
  · intro farmId msg h s
    simp [farmDetailOnError, h]

/-- C1 amended witness: requesting `farm-2` after a failure substitutes
the second hardcoded farm, and an unknown id leaves the displayed farm
unset while still storing the message. -/
theorem page_failure_handling_witness :
    farmDetailOnError "farm-2" "boom"
        { farm := none, loading := true, error := none, mapCenter := (0, 0) } =
      { farm := some (FARMS_DATA.get ⟨1, by decide⟩), loading := false
        error := some "boom", mapCenter := (28.3838, 36.5550) } ∧
    (farmDetailOnError "nope" "boom"
        { farm := none, loading := true, error := none, mapCenter := (0, 0) }).farm = none := by
  constructor
  · exact page_failure_handling_per_page.2.2.2.2.2.1 "farm-2" "boom"
      (FARMS_DATA.get ⟨1, by decide⟩) (by rfl)
      { farm := none, loading := true, error := none, mapCenter := (0, 0) }
  · exact (page_failure_handling_per_page.2.2.2.2.2.2 "nope" "boom" (by rfl)
      { farm := none, loading := true, error := none, mapCenter := (0, 0) }).1

/-- C2: clicking a soil point selects it (and clicking the already
selected point clears the selection); the detail panel shows exactly the
selected point's id, its coordinates, and its numeric non-excluded
properties; and the metrics displayed on the state map are a (constant)
function of the active region id. -/
theorem selection_matches_selected_id :
    (∀ point : SoilPointFeature, handleClick none point = some point) ∧
    (∀ sel point : SoilPointFeature, sel.properties.id = point.properties.id →
      handleClick (some sel) point = none) ∧
    (∀ sel point : SoilPointFeature, sel.properties.id ≠ point.properties.id →
      handleClick (some sel) point = some point) ∧
    (∀ p : SoilPointFeature, (detailPanel p).id = p.properties.id ∧
      (detailPanel p).lat = p.coordinates.2 ∧ (detailPanel p).lon = p.coordinates.1) ∧
    (∀ p : SoilPointFeature, ∀ k v, ((k, v) ∈ (detailPanel p).metrics ↔
      ((k, PropValue.num v) ∈ propEntries p.properties ∧ k ∉ excludedKeys))) ∧
    (∀ hovered : Option String, ∀ selected : String,
      stateMapActiveMetrics (activeRegionId hovered selected) = getPlaceholderMetrics) := by
  refine ⟨fun point => rfl, ?_, ?_, fun p => ⟨rfl, rfl, rfl⟩, ?_, fun h s => rfl⟩
  · intro sel point h
    simp [handleClick, h]
  · intro sel point h
    simp [handleClick, h]
  · intro p k v
    simp only [detailPanel, panelMetrics, List.mem_filterMap]
    constructor
    · rintro ⟨⟨k2, pv⟩, hmem, hf⟩
      by_cases hk : k2 ∈ excludedKeys
      · simp [hk] at hf
      · cases pv with
        | num w =>
            simp only [hk, if_false, Option.some.injEq, Prod.mk.injEq] at hf
            obtain ⟨rfl, rfl⟩ := hf
            exact ⟨hmem, hk⟩
        | str s => simp [hk] at hf
        | descTable t => simp [hk] at hf
    · rintro ⟨hmem, hk⟩
      exact ⟨(k, PropValue.num v), hmem, by simp [hk]⟩

/-- C2 witness: clicking point `s1` while `s1` is selected clears the
selection, and the pH metric of a concrete point appears in its detail
panel. -/
theorem selection_matches_selected_id_witness :
    handleClick
        (some { coordinates := (1, 2), properties := { id := "s1", extra := [] } })
        { coordinates := (-95, 29)
          properties := { id := "s1", extra := [("ph", PropValue.num 7)] } } = none ∧
    ("ph", (7 : ℚ)) ∈ (detailPanel
      { coordinates := (-95, 29)
        properties := { id := "s1", extra := [("ph", PropValue.num 7)] } }).metrics := by
  constructor
  · exact selection_matches_selected_id.2.1
      { coordinates := (1, 2), properties := { id := "s1", extra := [] } }
      { coordinates := (-95, 29)
        properties := { id := "s1", extra := [("ph", PropValue.num 7)] } } rfl
  · exact (selection_matches_selected_id.2.2.2.2.1
      { coordinates := (-95, 29)
        properties := { id := "s1", extra := [("ph", PropValue.num 7)] } }
      "ph" 7).mpr ⟨by decide, by decide⟩

/-- C7: each map-layer component's cleanup releases what its effect
added: `FarmMarkers` clears every marker from its layer group, the
heatmap layer removes its layer group from the map and nulls its
reference, and `MapContainer` removes the map instance and resets its
reference to null. -/
theorem cleanup_releases_layers :
    (∀ s : FarmMarkersState, ∀ ms, s.group = some ms →
      (farmMarkersCleanup s).group = some []) ∧
    (∀ farms s, (farmMarkersCleanup (farmMarkersEffect farms s)).group = some []) ∧
    (∀ s : HeatmapLayerState, (heatmapCleanup s).markersRef = none) ∧
    (∀ s : HeatmapLayerState, ∀ l, s.markersRef = some l → s.mapLayers.Nodup →
      l ∉ (heatmapCleanup s).mapLayers) ∧
    (∀ m : Nat, ∀ s : MapContainerState,
      (mapContainerCleanup m s).mapInstanceRef = none) ∧
    (∀ m : Nat, ∀ s : MapContainerState, s.liveMaps.Nodup →
      m ∉ (mapContainerCleanup m s).liveMaps) := by
  refine ⟨?_, fun farms s => rfl, ?_, ?_, fun m s => rfl, ?_⟩
  · intro s ms h
    simp [farmMarkersCleanup, h]
  · intro s
    unfold heatmapCleanup
    cases h : s.markersRef with
    | some l => rfl
    | none => simpa using h
  · intro s l h hnd
    simp only [heatmapCleanup, h]
    intro hmem
    exact ((List.Nodup.mem_erase_iff hnd).mp hmem).1 rfl
  · intro m s hnd hmem
    exact ((List.Nodup.mem_erase_iff hnd).mp hmem).1 rfl

/-- C7 witness: cleaning up a `FarmMarkers` group holding one marker
empties it, cleaning up a heatmap state with layer 3 referenced removes
layer 3 from the map, and `MapContainer` cleanup over map 1 leaves no
reference and no live instance. -/
theorem cleanup_releases_layers_witness :
    (farmMarkersCleanup { group := some ["farm-1"] }).group = some [] ∧
    (3 ∉ (heatmapCleanup { mapLayers := [3], markersRef := some 3 }).mapLayers) ∧
    (1 ∉ (mapContainerCleanup 1 { liveMaps := [1], mapInstanceRef := some 1 }).liveMaps) := by
  refine ⟨?_, ?_, ?_⟩
  · exact cleanup_releases_layers.1 { group := some ["farm-1"] } ["farm-1"] rfl
  · exact cleanup_releases_layers.2.2.2.1 { mapLayers := [3], markersRef := some 3 } 3
      rfl (by decide)
  · exact cleanup_releases_layers.2.2.2.2.2 1 { liveMaps := [1], mapInstanceRef := some 1 }
      (by decide)
